import Mathlib

/-!
Shallow embedding of src/oct/prepare/role_runner.py (RoleRunner) and the
external Ansible collaborators it delegates to.  Object identity (the
Python heap) is modelled by natural-number ids; the external backend
(Play.load, TaskQueueManager, Inventory construction) is modelled by
oracles, so theorems quantify over every possible backend behaviour.
Python default-argument semantics (defaults evaluated once at definition
time, hence shared) are modelled by fixed ids for the module-level
default VariableManager and DataLoader instances.
-/

/-- Python values that flow through the play description: None, booleans,
strings, integers, and dict literals. -/
inductive Value where
  | none
  | bool (b : Bool)
  | str (s : String)
  | int (n : Int)
  | dict (entries : List (String × Value))
  deriving Repr

/-- A role reference inside the play dict: dict(role=role, vars=vars). -/
structure RoleRef where
  role : String
  vars : Value
  deriving Repr

/-- The play_raw dict assembled by run_role. -/
structure PlayRaw where
  name : String
  hosts : Value
  gather_facts : Value
  roles : List RoleRef
  deriving Repr

/-- Errors the external Ansible backend can raise. -/
inductive AnsibleError where
  | configurationError (msg : String)
  | roleResolutionError (msg : String)
  | executionError (msg : String)
  deriving Repr, DecidableEq

/-- The namedtuple of Ansible play options built in the constructor. -/
structure Options where
  connection : String
  module_path : String
  forks : Nat
  become : Option Bool
  become_method : Option String
  become_user : Option String
  check : Bool
  deriving Repr, DecidableEq

/-- Calls the wrapper issues against external collaborators, recorded as a
trace.  Ids are heap identities of the objects involved. -/
inductive Event where
  | inventoryBuild (inv loader vm : Nat) (host_list : Option Value)
  | setInventory (vm inv : Nat)
  | playLoad (p : PlayRaw) (vm loader : Nat)
  | tqmAcquire (tqm inv vm loader : Nat)
  | tqmRunEv (tqm : Nat) (p : PlayRaw)
  | tqmRelease (tqm : Nat)
  deriving Repr

/-- Mutable world: an allocation counter and the mutable state of every
VariableManager object: its inventory binding (written by set_inventory,
newest first) and its variable contents (never written by this layer). -/
structure World where
  nextId : Nat
  vmInv : List (Nat × Nat)
  vmVars : List (Nat × List (String × Value))
  deriving Repr

/-- The inventory currently bound in a given VariableManager. -/
def vmLookup (w : World) (vm : Nat) : Option Nat :=
  (w.vmInv.find? (fun p => p.1 = vm)).map (fun p => p.2)

/-- Heap id of the module-level default VariableManager instance, created
once when the def statement is evaluated and shared by every construction
that omits the argument. -/
def defaultVariableManagerId : Nat := 0

/-- Heap id of the module-level default DataLoader instance, likewise
created once and shared. -/
def defaultDataLoaderId : Nat := 1

/-- World after module load: the two shared default instances exist. -/
def initialWorld : World :=
  { nextId := 2, vmInv := [], vmVars := [] }

/-- Oracle for external Inventory construction: whether building an
inventory from the given host source succeeds or raises. -/
structure InventoryBackend where
  build : Option Value → Except AnsibleError Unit

/-- Oracle for the external engine used by run_role: whether Play.load
raises, whether the TaskQueueManager constructor raises, and what running
the play produces. -/
structure Backend where
  playLoad : PlayRaw → Nat → Nat → Except AnsibleError Unit
  tqmInit : Except AnsibleError Unit
  tqmRun : PlayRaw → Except AnsibleError Value

/-- The RoleRunner session object: the fields assigned in the constructor. -/
structure RoleRunner where
  variable_manager : Nat
  data_loader : Nat
  ansible_play_options : Options
  passwords : Option Value
  inventory : Nat
  deriving Repr

/-- RoleRunner constructor.  Mirrors the source: store the variable
manager and data loader, build the options namedtuple, store passwords,
build the Inventory from the host source (propagating any failure, with
no local recovery), then call set_inventory on the variable manager.
The Python defaults bind variable_manager to the shared
defaultVariableManagerId and data_loader to defaultDataLoaderId. -/
def RoleRunner.init (ib : InventoryBackend) (w : World)
    (variable_manager data_loader : Nat) (host_list : Option Value)
    (passwords : Option Value) (connection : String) (module_path : String)
    (forks : Nat) (become : Option Bool) (become_method : Option String)
    (become_user : Option String) (check : Bool) :
    Except AnsibleError (RoleRunner × World × List Event) :=
  match ib.build host_list with
  | Except.error e => Except.error e
  | Except.ok _ =>
    Except.ok
      ({ variable_manager := variable_manager, data_loader := data_loader,
         ansible_play_options :=
           { connection := connection, module_path := module_path,
             forks := forks, become := become, become_method := become_method,
             become_user := become_user, check := check },
         passwords := passwords, inventory := w.nextId },
       { nextId := w.nextId + 1,
         vmInv := (variable_manager, w.nextId) :: w.vmInv,
         vmVars := w.vmVars },
       [Event.inventoryBuild w.nextId data_loader variable_manager host_list,
        Event.setInventory variable_manager w.nextId])

/-- The play_raw dict built at the top of run_role. -/
def mkPlayRaw (name role : String) (vars hosts gather_facts : Value) : PlayRaw :=
  { name := name, hosts := hosts, gather_facts := gather_facts,
    roles := [{ role := role, vars := vars }] }

/-- Python default for the vars parameter of run_role: None. -/
def defaultVars : Value := Value.none

/-- Python default for the hosts parameter of run_role: the string all. -/
def defaultHosts : Value := Value.str "all"

/-- Python default for the gather_facts parameter of run_role: the truthy
string yes. -/
def defaultGatherFacts : Value := Value.str "yes"

/-- run_role.  Mirrors the source: assemble play_raw, compile it with
Play().load (which may raise), then inside try acquire a fresh
TaskQueueManager (allocating a fresh id; its constructor may raise while
tqm is still None), run the play, and in finally call cleanup when tqm is
not None.  The Python function body has no return statement, so on the
non-raising path it returns None. -/
def run_role (b : Backend) (s : RoleRunner) (w : World)
    (name role : String) (vars hosts gather_facts : Value) :
    Except AnsibleError Value × World × List Event :=
  match b.playLoad (mkPlayRaw name role vars hosts gather_facts)
      s.variable_manager s.data_loader with
  | Except.error e =>
      (Except.error e, w,
       [Event.playLoad (mkPlayRaw name role vars hosts gather_facts)
          s.variable_manager s.data_loader])
  | Except.ok _ =>
    match b.tqmInit with
    | Except.error e =>
        (Except.error e, w,
         [Event.playLoad (mkPlayRaw name role vars hosts gather_facts)
            s.variable_manager s.data_loader])
    | Except.ok _ =>
      match b.tqmRun (mkPlayRaw name role vars hosts gather_facts) with
      | Except.error e =>
          (Except.error e,
           { w with nextId := w.nextId + 1 },
           [Event.playLoad (mkPlayRaw name role vars hosts gather_facts)
              s.variable_manager s.data_loader,
            Event.tqmAcquire w.nextId s.inventory s.variable_manager
              s.data_loader,
            Event.tqmRunEv w.nextId (mkPlayRaw name role vars hosts gather_facts),
            Event.tqmRelease w.nextId])
      | Except.ok _result =>
          (Except.ok Value.none,
           { w with nextId := w.nextId + 1 },
           [Event.playLoad (mkPlayRaw name role vars hosts gather_facts)
              s.variable_manager s.data_loader,
            Event.tqmAcquire w.nextId s.inventory s.variable_manager
              s.data_loader,
            Event.tqmRunEv w.nextId (mkPlayRaw name role vars hosts gather_facts),
            Event.tqmRelease w.nextId])

/-- Recognise a TaskQueueManager acquisition event. -/
def isAcquire : Event → Bool
  | Event.tqmAcquire _ _ _ _ => true
  | _ => false

/-- Recognise a TaskQueueManager cleanup event. -/
def isRelease : Event → Bool
  | Event.tqmRelease _ => true
  | _ => false

/-- Recognise a set_inventory call on a VariableManager. -/
def isSetInventory : Event → Bool
  | Event.setInventory _ _ => true
  | _ => false

/-- Recognise an Inventory construction. -/
def isInventoryBuild : Event → Bool
  | Event.inventoryBuild _ _ _ _ => true
  | _ => false

/-- The inventory id and variable-manager id carried by each acquisition
event of a trace. -/
def acquiredPairs (tr : List Event) : List (Nat × Nat) :=
  tr.filterMap (fun e =>
    match e with
    | Event.tqmAcquire _ inv vm _ => some (inv, vm)
    | _ => Option.none)

/-- The TaskQueueManager ids acquired in a trace. -/
def acquiredIds (tr : List Event) : List Nat :=
  tr.filterMap (fun e =>
    match e with
    | Event.tqmAcquire t _ _ _ => some t
    | _ => Option.none)

/-- Handle ids acquired in both traces: empty means no handle is reused. -/
def sharedIds (tr1 tr2 : List Event) : List Nat :=
  (acquiredIds tr2).filter (fun i => (acquiredIds tr1).contains i)

/-- The play description handed to the backend compile step, read off the
first event of the trace. -/
def headPlay : List Event → Option PlayRaw
  | Event.playLoad p _ _ :: _ => some p
  | _ => Option.none

/-- The plays actually run through an engine handle in a trace. -/
def playsRun (tr : List Event) : List PlayRaw :=
  tr.filterMap (fun e =>
    match e with
    | Event.tqmRunEv _ p => some p
    | _ => Option.none)

/-- An inventory backend whose construction always succeeds. -/
def okInventoryBackend : InventoryBackend :=
  { build := fun _ => Except.ok () }

/-- An inventory backend for a malformed host source: building the
inventory raises a configuration error from the data-loading facility. -/
def badInventoryBackend : InventoryBackend :=
  { build := fun _ => Except.error
      (AnsibleError.configurationError "unreadable inventory file") }

/-- A backend on which every step succeeds and running the play produces
a distinguishable result object. -/
def okBackend : Backend :=
  { playLoad := fun _ _ _ => Except.ok (),
    tqmInit := Except.ok (),
    tqmRun := fun _ => Except.ok (Value.str "backend-result") }

/-- A backend on which running the play raises an execution error. -/
def failBackend : Backend :=
  { playLoad := fun _ _ _ => Except.ok (),
    tqmInit := Except.ok (),
    tqmRun := fun _ => Except.error (AnsibleError.executionError "task failed") }

/-- Placeholder options record for total extractors. -/
def dummyOptions : Options :=
  { connection := "local", module_path := "", forks := 5,
    become := Option.none, become_method := Option.none,
    become_user := Option.none, check := false }

/-- Placeholder session for total extractors. -/
def dummySession : RoleRunner :=
  { variable_manager := 0, data_loader := 0,
    ansible_play_options := dummyOptions,
    passwords := Option.none, inventory := 0 }

/-- Extract the session from a construction outcome, or a placeholder. -/
def sessionOr (d : RoleRunner) :
    Except AnsibleError (RoleRunner × World × List Event) → RoleRunner
  | Except.ok (s, _, _) => s
  | Except.error _ => d

/-- Extract the world from a construction outcome, or a placeholder. -/
def worldOr (d : World) :
    Except AnsibleError (RoleRunner × World × List Event) → World
  | Except.ok (_, w, _) => w
  | Except.error _ => d

/-- Whether a construction outcome succeeded. -/
def constructionOk :
    Except AnsibleError (RoleRunner × World × List Event) → Bool
  | Except.ok _ => true
  | Except.error _ => false

/-- First session constructed with all Python defaults, right after module
load: variable_manager and data_loader take the shared default instances. -/
def initResult1 : Except AnsibleError (RoleRunner × World × List Event) :=
  RoleRunner.init okInventoryBackend initialWorld
    defaultVariableManagerId defaultDataLoaderId Option.none Option.none
    "local" "" 5 Option.none Option.none Option.none false

/-- Second session constructed with all Python defaults, in the world left
by the first construction. -/
def initResult2 : Except AnsibleError (RoleRunner × World × List Event) :=
  RoleRunner.init okInventoryBackend (worldOr initialWorld initResult1)
    defaultVariableManagerId defaultDataLoaderId Option.none Option.none
    "local" "" 5 Option.none Option.none Option.none false

/-- A concrete session as the first default construction produces it. -/
def demoSession : RoleRunner := sessionOr dummySession initResult1

/-- The world after the first default construction. -/
def demoWorld : World := worldOr initialWorld initResult1

/-- C1: on every run_role call, whatever the backend does, the number of
engine-handle cleanup calls equals the number of handle acquisitions, and
at most one handle is acquired: the handle is released exactly once when
acquired and never leaked. -/
theorem run_role_releases_engine_handle_exactly_once
    (b : Backend) (s : RoleRunner) (w : World) (name role : String)
    (vars hosts gather_facts : Value) :
    (run_role b s w name role vars hosts gather_facts).2.2.countP isRelease
      = (run_role b s w name role vars hosts gather_facts).2.2.countP isAcquire
    ∧ (run_role b s w name role vars hosts gather_facts).2.2.countP isAcquire ≤ 1 := by
  unfold run_role
  split <;> try split <;> try split
  all_goals simp [isAcquire, isRelease]

/-- C6: every run_role call either stops at the compile step (trace is the
single Play load event, when loading or handle construction raises) or
proceeds in the exact order compile, acquire a fresh handle, run, release,
with release last on both the completed and the failed path; and a second
call threaded through the resulting world never reuses a handle id
acquired by the first call. -/
theorem run_role_state_order
    (b b2 : Backend) (s : RoleRunner) (w : World) (name role : String)
    (vars hosts gather_facts : Value)
    (name2 role2 : String) (vars2 hosts2 gather_facts2 : Value) :
    ((run_role b s w name role vars hosts gather_facts).2.2
        = [Event.playLoad (mkPlayRaw name role vars hosts gather_facts)
             s.variable_manager s.data_loader]
      ∨ ((run_role b s w name role vars hosts gather_facts).2.2
          = [Event.playLoad (mkPlayRaw name role vars hosts gather_facts)
               s.variable_manager s.data_loader,
             Event.tqmAcquire w.nextId s.inventory s.variable_manager
               s.data_loader,
             Event.tqmRunEv w.nextId (mkPlayRaw name role vars hosts gather_facts),
             Event.tqmRelease w.nextId]
         ∧ (run_role b s w name role vars hosts gather_facts).2.1.nextId
             = w.nextId + 1))
    ∧ sharedIds (run_role b s w name role vars hosts gather_facts).2.2
        (run_role b2 s (run_role b s w name role vars hosts gather_facts).2.1
          name2 role2 vars2 hosts2 gather_facts2).2.2 = [] := by
  unfold run_role
  repeat' split
  all_goals simp [sharedIds, acquiredIds]

/-- C8: the play description handed to the backend compile step consists
of exactly the given play name, host selector, fact-gathering flag and one
role reference carrying the role identifier and the variable overrides,
and any play run through an engine handle is that same description. -/
theorem run_role_play_description_exact
    (b : Backend) (s : RoleRunner) (w : World) (name role : String)
    (vars hosts gather_facts : Value) :
    headPlay (run_role b s w name role vars hosts gather_facts).2.2
      = some { name := name, hosts := hosts, gather_facts := gather_facts,
               roles := [{ role := role, vars := vars }] }
    ∧ (playsRun (run_role b s w name role vars hosts gather_facts).2.2 = []
       ∨ playsRun (run_role b s w name role vars hosts gather_facts).2.2
           = [{ name := name, hosts := hosts, gather_facts := gather_facts,
                roles := [{ role := role, vars := vars }] }]) := by
  unfold run_role
  repeat' split
  all_goals simp [headPlay, playsRun, mkPlayRaw]

/-- C4: a run_role call with a non-empty vars override leaves the state of
every VariableManager untouched: the inventory bindings and variable
contents of the world are unchanged and the call issues no set_inventory
call, the override living only in the ephemeral play description. -/
theorem run_role_override_isolated
    (b : Backend) (s : RoleRunner) (w : World) (name role : String)
    (vs : List (String × Value)) (hosts gather_facts : Value)
    (h : vs ≠ []) :
    (run_role b s w name role (Value.dict vs) hosts gather_facts).2.1.vmInv
        = w.vmInv
    ∧ (run_role b s w name role (Value.dict vs) hosts gather_facts).2.1.vmVars
        = w.vmVars
    ∧ (run_role b s w name role (Value.dict vs) hosts
        gather_facts).2.2.countP isSetInventory = 0 := by
  unfold run_role
  repeat' split
  all_goals simp [isSetInventory]

/-- Witness for C4 at a concrete non-empty override. -/
theorem run_role_override_isolated_witness :
    ([(("port" : String), Value.int 8080)] ≠ ([] : List (String × Value)))
    ∧ ((run_role okBackend demoSession demoWorld "deploy" "webserver"
          (Value.dict [("port", Value.int 8080)]) (Value.str "all")
          (Value.bool false)).2.1.vmInv = demoWorld.vmInv
      ∧ (run_role okBackend demoSession demoWorld "deploy" "webserver"
          (Value.dict [("port", Value.int 8080)]) (Value.str "all")
          (Value.bool false)).2.1.vmVars = demoWorld.vmVars
      ∧ (run_role okBackend demoSession demoWorld "deploy" "webserver"
          (Value.dict [("port", Value.int 8080)]) (Value.str "all")
          (Value.bool false)).2.2.countP isSetInventory = 0) :=
  ⟨List.cons_ne_nil _ _,
   run_role_override_isolated okBackend demoSession demoWorld "deploy"
     "webserver" [("port", Value.int 8080)] (Value.str "all")
     (Value.bool false) (List.cons_ne_nil _ _)⟩

/-- C2: counter to the claim, a completed run_role call does not return
the backend result: the Python body has no return statement, so it
returns None even though the backend produced a distinct result object;
only the failure half of the claim holds, a raising run propagating its
error to the caller. -/
theorem run_role_discards_backend_result :
    (run_role okBackend demoSession demoWorld "deploy" "webserver"
        (Value.dict [("port", Value.int 8080)]) (Value.str "all")
        (Value.bool false)).1 = Except.ok Value.none
    ∧ okBackend.tqmRun (mkPlayRaw "deploy" "webserver"
        (Value.dict [("port", Value.int 8080)]) (Value.str "all")
        (Value.bool false)) = Except.ok (Value.str "backend-result")
    ∧ (Except.ok Value.none : Except AnsibleError Value)
        ≠ Except.ok (Value.str "backend-result")
    ∧ (run_role failBackend demoSession demoWorld "deploy" "webserver"
        (Value.dict [("port", Value.int 8080)]) (Value.str "all")
        (Value.bool false)).1
        = Except.error (AnsibleError.executionError "task failed") := by
  refine ⟨rfl, rfl, ?_, rfl⟩
  intro h
  injection h with h1
  exact Value.noConfusion h1

/-- C3: counter to the claim, two sessions constructed with the Python
default arguments share one VariableManager and one DataLoader: the
defaults are evaluated once at function definition time, so both
successful constructions, though they build distinct sessions, receive
the identical shared default instances. -/
theorem default_constructions_share_scope_and_loader :
    constructionOk initResult1 = true
    ∧ constructionOk initResult2 = true
    ∧ (sessionOr dummySession initResult1).inventory
        ≠ (sessionOr dummySession initResult2).inventory
    ∧ (sessionOr dummySession initResult1).variable_manager
        = (sessionOr dummySession initResult2).variable_manager
    ∧ (sessionOr dummySession initResult1).data_loader
        = (sessionOr dummySession initResult2).data_loader
    ∧ (sessionOr dummySession initResult1).variable_manager
        = defaultVariableManagerId
    ∧ (sessionOr dummySession initResult1).data_loader
        = defaultDataLoaderId := by
  refine ⟨rfl, rfl, ?_, rfl, rfl, rfl, rfl⟩
  decide

/-- C5: a successful construction builds exactly one Inventory and issues
exactly one set_inventory binding, the session records that inventory and
the given variable manager, and two threaded run_role calls on the same
session build no inventory, rebind no scope, and configure every acquired
engine handle with exactly the construction-time inventory and variable
manager of the session. -/
theorem single_inventory_and_scope_per_session
    (ib : InventoryBackend) (w : World) (vm dl : Nat)
    (hl pw : Option Value) (c mp : String) (f : Nat) (bb : Option Bool)
    (bm bu : Option String) (ch : Bool)
    (s : RoleRunner) (w1 : World) (evs : List Event)
    (h : RoleRunner.init ib w vm dl hl pw c mp f bb bm bu ch
          = Except.ok (s, w1, evs))
    (b1 b2 : Backend) (n1 r1 : String) (v1 hs1 g1 : Value)
    (n2 r2 : String) (v2 hs2 g2 : Value) :
    evs.countP isInventoryBuild = 1
    ∧ evs.countP isSetInventory = 1
    ∧ s.inventory = w.nextId
    ∧ s.variable_manager = vm
    ∧ (run_role b1 s w1 n1 r1 v1 hs1 g1).2.2.countP isInventoryBuild = 0
    ∧ (run_role b1 s w1 n1 r1 v1 hs1 g1).2.2.countP isSetInventory = 0
    ∧ (run_role b2 s (run_role b1 s w1 n1 r1 v1 hs1 g1).2.1
        n2 r2 v2 hs2 g2).2.2.countP isInventoryBuild = 0
    ∧ (run_role b2 s (run_role b1 s w1 n1 r1 v1 hs1 g1).2.1
        n2 r2 v2 hs2 g2).2.2.countP isSetInventory = 0
    ∧ (acquiredPairs (run_role b1 s w1 n1 r1 v1 hs1 g1).2.2 = []
       ∨ acquiredPairs (run_role b1 s w1 n1 r1 v1 hs1 g1).2.2
           = [(s.inventory, s.variable_manager)])
    ∧ (acquiredPairs (run_role b2 s (run_role b1 s w1 n1 r1 v1 hs1 g1).2.1
          n2 r2 v2 hs2 g2).2.2 = []
       ∨ acquiredPairs (run_role b2 s (run_role b1 s w1 n1 r1 v1 hs1 g1).2.1
          n2 r2 v2 hs2 g2).2.2 = [(s.inventory, s.variable_manager)]) := by
  unfold RoleRunner.init at h
  split at h
  · exact absurd h (by simp)
  · simp only [Except.ok.injEq, Prod.mk.injEq] at h
    obtain ⟨hs, hw, he⟩ := h
    subst hs; subst hw; subst he
    refine ⟨by simp [isInventoryBuild, isSetInventory],
            by simp [isInventoryBuild, isSetInventory], rfl, rfl, ?_⟩
    unfold run_role
    repeat' split
    all_goals
      simp [isInventoryBuild, isSetInventory, acquiredPairs]

/-- Witness for C5 at a concrete construction and two concrete calls. -/
theorem single_inventory_and_scope_per_session_witness :
    ([Event.inventoryBuild 2 1 0 Option.none,
      Event.setInventory 0 2] : List Event).countP isInventoryBuild = 1
    ∧ ([Event.inventoryBuild 2 1 0 Option.none,
        Event.setInventory 0 2] : List Event).countP isSetInventory = 1
    ∧ demoSession.inventory = initialWorld.nextId
    ∧ demoSession.variable_manager = 0
    ∧ (run_role okBackend demoSession demoWorld "p1" "r1" Value.none
        (Value.str "all") (Value.str "yes")).2.2.countP isInventoryBuild = 0
    ∧ (run_role okBackend demoSession demoWorld "p1" "r1" Value.none
        (Value.str "all") (Value.str "yes")).2.2.countP isSetInventory = 0
    ∧ (run_role failBackend demoSession
        (run_role okBackend demoSession demoWorld "p1" "r1" Value.none
          (Value.str "all") (Value.str "yes")).2.1 "p2" "r2" Value.none
        (Value.str "all") (Value.str "yes")).2.2.countP isInventoryBuild = 0
    ∧ (run_role failBackend demoSession
        (run_role okBackend demoSession demoWorld "p1" "r1" Value.none
          (Value.str "all") (Value.str "yes")).2.1 "p2" "r2" Value.none
        (Value.str "all") (Value.str "yes")).2.2.countP isSetInventory = 0
    ∧ (acquiredPairs (run_role okBackend demoSession demoWorld "p1" "r1"
          Value.none (Value.str "all") (Value.str "yes")).2.2 = []
       ∨ acquiredPairs (run_role okBackend demoSession demoWorld "p1" "r1"
          Value.none (Value.str "all") (Value.str "yes")).2.2
           = [(demoSession.inventory, demoSession.variable_manager)])
    ∧ (acquiredPairs (run_role failBackend demoSession
          (run_role okBackend demoSession demoWorld "p1" "r1" Value.none
            (Value.str "all") (Value.str "yes")).2.1 "p2" "r2" Value.none
          (Value.str "all") (Value.str "yes")).2.2 = []
       ∨ acquiredPairs (run_role failBackend demoSession
          (run_role okBackend demoSession demoWorld "p1" "r1" Value.none
            (Value.str "all") (Value.str "yes")).2.1 "p2" "r2" Value.none
          (Value.str "all") (Value.str "yes")).2.2
           = [(demoSession.inventory, demoSession.variable_manager)]) :=
  single_inventory_and_scope_per_session okInventoryBackend initialWorld 0 1
    Option.none Option.none "local" "" 5 Option.none Option.none Option.none
    false demoSession demoWorld
    [Event.inventoryBuild 2 1 0 Option.none, Event.setInventory 0 2]
    rfl okBackend failBackend "p1" "r1" Value.none (Value.str "all")
    (Value.str "yes") "p2" "r2" Value.none (Value.str "all") (Value.str "yes")

/-- C7 counterexample: with the Python defaults, the play handed to the
backend carries None as the role reference's vars, which is not an empty
variable mapping, and carries the string yes as the fact-gathering flag,
which is not the boolean true. -/
theorem run_role_default_vars_is_none_not_empty_dict :
    headPlay (run_role okBackend demoSession demoWorld "deploy" "webserver"
        defaultVars defaultHosts defaultGatherFacts).2.2
      = some { name := "deploy", hosts := Value.str "all",
               gather_facts := Value.str "yes",
               roles := [{ role := "webserver", vars := Value.none }] }
    ∧ defaultVars = Value.none
    ∧ Value.none ≠ Value.dict []
    ∧ defaultGatherFacts = Value.str "yes"
    ∧ defaultGatherFacts ≠ Value.bool true := by
  refine ⟨rfl, rfl, ?_, rfl, ?_⟩ <;> (intro h; exact Value.noConfusion h)

/-- C7 amended: a run_role call with the Python default arguments targets
the host selector all, enables fact gathering through the truthy string
yes, and passes None, not a mapping, as the role's variable overrides. -/
theorem run_role_default_parameters
    (b : Backend) (s : RoleRunner) (w : World) (name role : String) :
    headPlay (run_role b s w name role defaultVars defaultHosts
        defaultGatherFacts).2.2
      = some { name := name, hosts := Value.str "all",
               gather_facts := Value.str "yes",
               roles := [{ role := role, vars := Value.none }] } := by
  unfold run_role
  repeat' split
  all_goals
    simp [headPlay, mkPlayRaw, defaultVars, defaultHosts, defaultGatherFacts]

/-- C9: when building the Inventory from the host source raises a
configuration error in the external data-loading facility, the RoleRunner
constructor propagates exactly that error to the caller, recovering
nothing locally and producing no session. -/
theorem construction_propagates_configuration_error
    (ib : InventoryBackend) (w : World) (vm dl : Nat)
    (hl pw : Option Value) (c mp : String) (f : Nat) (bb : Option Bool)
    (bm bu : Option String) (ch : Bool) (m : String)
    (h : ib.build hl = Except.error (AnsibleError.configurationError m)) :
    RoleRunner.init ib w vm dl hl pw c mp f bb bm bu ch
      = Except.error (AnsibleError.configurationError m) := by
  unfold RoleRunner.init
  rw [h]

/-- Witness for C9 on a backend with an unreadable inventory file. -/
theorem construction_propagates_configuration_error_witness :
    badInventoryBackend.build Option.none
      = Except.error
          (AnsibleError.configurationError "unreadable inventory file")
    ∧ RoleRunner.init badInventoryBackend initialWorld 0 1 Option.none
        Option.none "local" "" 5 Option.none Option.none Option.none false
      = Except.error
          (AnsibleError.configurationError "unreadable inventory file") :=
  ⟨rfl, construction_propagates_configuration_error badInventoryBackend
     initialWorld 0 1 Option.none Option.none "local" "" 5 Option.none
     Option.none Option.none false "unreadable inventory file" rfl⟩

/-- C10: every successful construction calls set_inventory on the
variable manager it was given, rebinding that manager's inventory to the
newly built Inventory; and since the default variable manager is one
shared instance, a second default-argument construction rebinds the
inventory seen by the first session's manager to the second session's
inventory, a different object. -/
theorem construction_rebinds_variable_manager_inventory :
    (∀ (ib : InventoryBackend) (w : World) (vm dl : Nat)
       (hl pw : Option Value) (c mp : String) (f : Nat) (bb : Option Bool)
       (bm bu : Option String) (ch : Bool)
       (s : RoleRunner) (w1 : World) (evs : List Event),
       RoleRunner.init ib w vm dl hl pw c mp f bb bm bu ch
           = Except.ok (s, w1, evs) →
       s.variable_manager = vm
       ∧ evs.countP isSetInventory = 1
       ∧ vmLookup w1 vm = some s.inventory)
    ∧ (sessionOr dummySession initResult1).variable_manager
        = defaultVariableManagerId
    ∧ (sessionOr dummySession initResult2).variable_manager
        = defaultVariableManagerId
    ∧ vmLookup demoWorld defaultVariableManagerId
        = some (sessionOr dummySession initResult1).inventory
    ∧ vmLookup (worldOr initialWorld initResult2) defaultVariableManagerId
        = some (sessionOr dummySession initResult2).inventory
    ∧ (sessionOr dummySession initResult2).inventory
        ≠ (sessionOr dummySession initResult1).inventory := by
  refine ⟨?_, rfl, rfl, rfl, rfl, by decide⟩
  intro ib w vm dl hl pw c mp f bb bm bu ch s w1 evs h
  unfold RoleRunner.init at h
  split at h
  · exact absurd h (by simp)
  · simp only [Except.ok.injEq, Prod.mk.injEq] at h
    obtain ⟨hs, hw, he⟩ := h
    subst hs; subst hw; subst he
    refine ⟨rfl, by simp [isSetInventory], ?_⟩
    simp [vmLookup]

/-- Witness for C10 at the first default construction. -/
theorem construction_rebinds_variable_manager_inventory_witness :
    demoSession.variable_manager = 0
    ∧ ([Event.inventoryBuild 2 1 0 Option.none,
        Event.setInventory 0 2] : List Event).countP isSetInventory = 1
    ∧ vmLookup demoWorld 0 = some demoSession.inventory :=
  construction_rebinds_variable_manager_inventory.1 okInventoryBackend
    initialWorld 0 1 Option.none Option.none "local" "" 5 Option.none
    Option.none Option.none false demoSession demoWorld
    [Event.inventoryBuild 2 1 0 Option.none, Event.setInventory 0 2] rfl
